import Mathlib

/-!
# Verification of the GUI-OS agent benchmarking core

Shallow embedding, in Lean 4, of the parts of the repository
`GUI-OS-AI-Agent-Benchmarking` that the specification's claims are about:

* `src/orchestrator.py` — port-pool generation and the per-job control flow
  around summary persistence and error logs;
* `src/sandbox/configs.py` — `SandboxVMConfig.__post_init__` port-map merge;
* `src/sandbox/virtualmachine.py` — `VMManager` attach/start lifecycle;
* `src/sandbox/ssh.py` — `SSHClient.exec_command` read loop, sudo-prompt
  handling, timeout and exit-status error construction;
* `src/agent/executor.py` — `SandboxExecutor.run_code_raise_errors` kernel
  message loop and `cleanup`.

Python `dict`s are embedded as association lists with later-entry
precedence; machine integers as `Int`/`Nat`; raised exceptions as explicit
error results; the outside world (docker daemon, SSH channel, websocket)
as explicit input traces.
-/

namespace Bench

/-! ## Python dict as an association list (later entries override) -/

/-- Lookup in a Python-dict-like association list built by successive
insertions: the **last** binding of a key wins, as for a Python `dict`
comprehension or `dict.update`. -/
def pyGet {α β : Type} [DecidableEq α] : List (α × β) → α → Option β
  | [], _ => none
  | (k, v) :: rest, key =>
      match pyGet rest key with
      | some v' => some v'
      | none => if k = key then some v else none

theorem pyGet_mem {α β : Type} [DecidableEq α] (l : List (α × β)) (k : α) (v : β)
    (h : pyGet l k = some v) : (k, v) ∈ l := by
  induction l with
  | nil => simp [pyGet] at h
  | cons hd tl ih =>
      obtain ⟨k', v'⟩ := hd
      simp only [pyGet] at h
      cases htl : pyGet tl k with
      | some w =>
          rw [htl] at h
          obtain rfl : w = v := by injection h
          exact List.mem_cons_of_mem _ (ih htl)
      | none =>
          rw [htl] at h
          by_cases hk : k' = k
          · simp only [hk, if_pos rfl] at h
            obtain rfl : v' = v := by injection h
            subst hk
            exact List.mem_cons_self _ _
          · simp [hk] at h

theorem pyGet_isSome_of_key_mem {α β : Type} [DecidableEq α]
    (l : List (α × β)) (k : α) (hk : k ∈ l.map Prod.fst) :
    ∃ v, pyGet l k = some v := by
  induction l with
  | nil => simp at hk
  | cons hd tl ih =>
      obtain ⟨k', v'⟩ := hd
      simp only [List.map_cons, List.mem_cons] at hk
      simp only [pyGet]
      cases htl : pyGet tl k with
      | some w => exact ⟨w, rfl⟩
      | none =>
          rcases hk with hk | hk
          · exact ⟨v', by simp [hk]⟩
          · rcases ih hk with ⟨w, hw⟩
            rw [hw] at htl
            exact absurd htl (by simp)

/-- Lookup in the concatenation of two insertion lists: the second
(later-inserted) list takes precedence, as for `d.update(d2)`. -/
theorem pyGet_append {α β : Type} [DecidableEq α] (l1 l2 : List (α × β)) (k : α) :
    pyGet (l1 ++ l2) k =
      match pyGet l2 k with
      | some v => some v
      | none => pyGet l1 k := by
  induction l1 with
  | nil =>
      simp only [List.nil_append]
      cases h2 : pyGet l2 k <;> simp [pyGet]
  | cons hd tl ih =>
      obtain ⟨k', v'⟩ := hd
      rw [List.cons_append]
      simp only [pyGet]
      rw [ih]
      cases h2 : pyGet l2 k with
      | some w => simp
      | none => cases ht : pyGet tl k <;> simp

/-! ## `generate_port_pool` (`src/orchestrator.py`)

```python
def generate_port_pool(start, max_conc, keys, out_file="port_pool.json"):
    pool = []
    port = start
    effective_max_conc = max(1, max_conc)
    for _ in range(effective_max_conc):
        mapping = {k: port + i for i, k in enumerate(keys)}
        pool.append(mapping)
        port += len(keys)
    ...   # JSON dump of the pool (I/O, not modelled)
    return pool
```
-/

/-- The insertion list of `{k: port + i for i, k in enumerate(keys)}`,
with the enumeration index starting at `i0`. -/
def portMappingFrom (port : Int) (i0 : Nat) : List String → List (String × Int)
  | [] => []
  | k :: rest => (k, port + i0) :: portMappingFrom port (i0 + 1) rest

/-- `{k: port + i for i, k in enumerate(keys)}`. -/
def portMapping (port : Int) (keys : List String) : List (String × Int) :=
  portMappingFrom port 0 keys

/-- The `for _ in range(effective_max_conc)` loop body of
`generate_port_pool`, advancing `port` by `len(keys)` per iteration. -/
def portPoolLoop (keys : List String) : Nat → Int → List (List (String × Int))
  | 0, _ => []
  | n + 1, port => portMapping port keys :: portPoolLoop keys n (port + keys.length)

/-- `generate_port_pool(start, max_conc, keys)` (the write of
`port_pool.json` is I/O and not modelled). -/
def generate_port_pool (start max_conc : Int) (keys : List String) :
    List (List (String × Int)) :=
  portPoolLoop keys (max 1 max_conc).toNat start

theorem portPoolLoop_length (keys : List String) (n : Nat) (port : Int) :
    (portPoolLoop keys n port).length = n := by
  induction n generalizing port with
  | zero => rfl
  | succ m ih => simp [portPoolLoop, ih]

theorem portPoolLoop_get (keys : List String) (n : Nat) (port : Int)
    (i : Nat) (hi : i < (portPoolLoop keys n port).length) :
    (portPoolLoop keys n port).get ⟨i, hi⟩ =
      portMapping (port + i * keys.length) keys := by
  induction n generalizing port i with
  | zero => rw [portPoolLoop_length] at hi; omega
  | succ m ih =>
      cases i with
      | zero => simp [portPoolLoop]
      | succ j =>
          have hj : j < (portPoolLoop keys m (port + keys.length)).length := by
            rw [portPoolLoop_length]
            rw [portPoolLoop_length] at hi
            omega
          have := ih (port + keys.length) j hj
          simp only [portPoolLoop, List.get_cons_succ]
          rw [this]
          congr 1
          push_cast
          ring

theorem pyGet_portMappingFrom (keys : List String) (port : Int) (i0 : Nat)
    (k : String) (v : Int) (h : pyGet (portMappingFrom port i0 keys) k = some v) :
    ∃ j, j < keys.length ∧ keys.get? j = some k ∧ v = port + i0 + j := by
  induction keys generalizing i0 with
  | nil => simp [portMappingFrom, pyGet] at h
  | cons k' rest ih =>
      simp only [portMappingFrom, pyGet] at h
      cases htl : pyGet (portMappingFrom port (i0 + 1) rest) k with
      | some w =>
          rw [htl] at h
          obtain rfl : w = v := by injection h
          obtain ⟨j, hj, hget, hv⟩ := ih (i0 + 1) htl
          refine ⟨j + 1, by simpa using hj, by simpa using hget, ?_⟩
          rw [hv]; push_cast; ring
      | none =>
          rw [htl] at h
          by_cases hk : k' = k
          · simp only [hk, if_pos rfl] at h
            obtain rfl : port + (i0 : Int) = v := by injection h
            exact ⟨0, by simp, by simp [hk], by push_cast; ring⟩
          · simp [hk] at h

theorem portMappingFrom_keys (keys : List String) (port : Int) (i0 : Nat) :
    (portMappingFrom port i0 keys).map Prod.fst = keys := by
  induction keys generalizing i0 with
  | nil => rfl
  | cons k' rest ih => simp [portMappingFrom, ih]

/-- Every value assigned by `portMapping port keys` lies in the block
`[port, port + len(keys))`. -/
theorem pyGet_portMapping_range (keys : List String) (port : Int)
    (k : String) (v : Int) (h : pyGet (portMapping port keys) k = some v) :
    port ≤ v ∧ v < port + keys.length := by
  obtain ⟨j, hj, _, hv⟩ := pyGet_portMappingFrom keys port 0 k v h
  constructor <;> (rw [hv]; push_cast; omega)

/-- Distinct keys receive distinct ports within one mapping. -/
theorem pyGet_portMapping_inj (keys : List String) (port : Int)
    (k1 k2 : String) (v1 v2 : Int) (hne : k1 ≠ k2)
    (h1 : pyGet (portMapping port keys) k1 = some v1)
    (h2 : pyGet (portMapping port keys) k2 = some v2) : v1 ≠ v2 := by
  obtain ⟨j1, hj1, hget1, hv1⟩ := pyGet_portMappingFrom keys port 0 k1 v1 h1
  obtain ⟨j2, hj2, hget2, hv2⟩ := pyGet_portMappingFrom keys port 0 k2 v2 h2
  intro hv
  have hj : (j1 : Int) = j2 := by omega
  have : j1 = j2 := by exact_mod_cast hj
  subst this
  rw [hget1] at hget2
  exact hne (by injection hget2)

/-- Two distinct blocks of `L` consecutive integers, laid out at stride `L`
from a common start, cannot share a value. -/
theorem block_disjoint_aux (start : Int) (L : Nat) (a b : Nat) (hab : a < b)
    (v : Int) (h1 : start + a * L ≤ v ∧ v < start + a * L + L)
    (h2 : start + b * L ≤ v ∧ v < start + b * L + L) : False := by
  have hmul : (a + 1) * L ≤ b * L := Nat.mul_le_mul_right L hab
  have hcast : ((a + 1) * L : Int) ≤ (b * L : Int) := by exact_mod_cast hmul
  push_cast at hcast
  obtain ⟨_, h1b⟩ := h1
  obtain ⟨h2a, _⟩ := h2
  nlinarith

/-- Slot `i` of the generated pool is the mapping whose block starts at
`start + i * len(keys)`. -/
theorem generate_port_pool_get (start max_conc : Int) (keys : List String)
    (i : Nat) (hi : i < (generate_port_pool start max_conc keys).length) :
    (generate_port_pool start max_conc keys).get ⟨i, hi⟩ =
      portMapping (start + i * keys.length) keys :=
  portPoolLoop_get keys _ start i hi

/-- **C2** (amended): for every start port, concurrency count and non-empty
key list, `generate_port_pool` returns one mapping per effective concurrency
slot — the number of slots being `max(1, max_conc)` — each mapping assigns
every key a port, distinct keys get distinct ports within a mapping, and the
port sets of any two distinct slots are disjoint. -/
theorem C2_generate_port_pool_distinct_disjoint (start max_conc : Int)
    (keys : List String) (_hkeys : keys ≠ []) :
    (generate_port_pool start max_conc keys).length = (max 1 max_conc).toNat ∧
    (∀ m ∈ generate_port_pool start max_conc keys, ∀ k ∈ keys,
        ∃ v, pyGet m k = some v) ∧
    (∀ m ∈ generate_port_pool start max_conc keys, ∀ k1 k2 v1 v2, k1 ≠ k2 →
        pyGet m k1 = some v1 → pyGet m k2 = some v2 → v1 ≠ v2) ∧
    (∀ i j, (hi : i < (generate_port_pool start max_conc keys).length) →
        (hj : j < (generate_port_pool start max_conc keys).length) → i ≠ j →
        ∀ k1 k2 v,
          pyGet ((generate_port_pool start max_conc keys).get ⟨i, hi⟩) k1 = some v →
          pyGet ((generate_port_pool start max_conc keys).get ⟨j, hj⟩) k2 = some v →
          False) := by
  refine ⟨portPoolLoop_length keys _ start, ?_, ?_, ?_⟩
  · intro m hm k hk
    obtain ⟨⟨i, hi⟩, rfl⟩ := List.mem_iff_get.mp hm
    rw [generate_port_pool_get]
    exact pyGet_isSome_of_key_mem _ k (by rw [portMapping, portMappingFrom_keys]; exact hk)
  · intro m hm k1 k2 v1 v2 hne h1 h2
    obtain ⟨⟨i, hi⟩, rfl⟩ := List.mem_iff_get.mp hm
    rw [generate_port_pool_get] at h1 h2
    exact pyGet_portMapping_inj keys _ k1 k2 v1 v2 hne h1 h2
  · intro i j hi hj hij k1 k2 v h1 h2
    rw [generate_port_pool_get] at h1 h2
    have r1 := pyGet_portMapping_range keys _ k1 v h1
    have r2 := pyGet_portMapping_range keys _ k2 v h2
    rcases Nat.lt_or_ge i j with h | h
    · exact block_disjoint_aux start keys.length i j h v r1 r2
    · have : j < i := lt_of_le_of_ne h (Ne.symm hij)
      exact block_disjoint_aux start keys.length j i this v r2 r1

/-- Witness for C2: the amended statement holds at start 60000,
concurrency 2, the repository's four port keys. -/
theorem C2_generate_port_pool_distinct_disjoint_witness :
    (generate_port_pool 60000 2 ["ssh", "vnc", "fastapi", "jupyter"]).length =
        (max 1 2 : Int).toNat ∧
    (∀ m ∈ generate_port_pool 60000 2 ["ssh", "vnc", "fastapi", "jupyter"],
        ∀ k ∈ ["ssh", "vnc", "fastapi", "jupyter"], ∃ v, pyGet m k = some v) ∧
    (∀ m ∈ generate_port_pool 60000 2 ["ssh", "vnc", "fastapi", "jupyter"],
        ∀ k1 k2 v1 v2, k1 ≠ k2 →
        pyGet m k1 = some v1 → pyGet m k2 = some v2 → v1 ≠ v2) ∧
    (∀ i j,
        (hi : i < (generate_port_pool 60000 2 ["ssh", "vnc", "fastapi", "jupyter"]).length) →
        (hj : j < (generate_port_pool 60000 2 ["ssh", "vnc", "fastapi", "jupyter"]).length) →
        i ≠ j → ∀ k1 k2 v,
          pyGet ((generate_port_pool 60000 2 ["ssh", "vnc", "fastapi", "jupyter"]).get
            ⟨i, hi⟩) k1 = some v →
          pyGet ((generate_port_pool 60000 2 ["ssh", "vnc", "fastapi", "jupyter"]).get
            ⟨j, hj⟩) k2 = some v → False) :=
  C2_generate_port_pool_distinct_disjoint 60000 2 ["ssh", "vnc", "fastapi", "jupyter"]
    (by simp)

/-- **C2** counterexample: for concurrency count 0 the claim as stated asks
for zero mappings (one per concurrency slot), but `max(1, max_conc)` clamps
the slot count, so the pool holds one mapping. -/
theorem C2_counterexample :
    (generate_port_pool 60000 0 ["ssh", "vnc", "fastapi", "jupyter"]).length = 1 ∧
    (1 : Nat) ≠ 0 := by
  constructor
  · rfl
  · decide

/-! ## `SandboxVMConfig.__post_init__` port merge (`src/sandbox/configs.py`)

```python
final_ports = {}
final_ports.update(self.additional_ports)
essential_ports = {
    8006: self.host_vnc_port,
    22: self.host_ssh_port,
    8765: self.host_sandbox_fastapi_server_port,
    8888: self.host_sandbox_jupyter_kernel_port,
}
final_ports.update(essential_ports)
self.ports = final_ports
```
-/

/-- The `essential_ports` dict of `SandboxVMConfig.__post_init__`. -/
def essential_ports (host_vnc_port host_ssh_port
    host_sandbox_fastapi_server_port host_sandbox_jupyter_kernel_port : Int) :
    List (Int × Int) :=
  [(8006, host_vnc_port), (22, host_ssh_port),
   (8765, host_sandbox_fastapi_server_port),
   (8888, host_sandbox_jupyter_kernel_port)]

/-- The `ports` dict after `SandboxVMConfig.__post_init__`: an empty dict
updated with `additional_ports` and then with `essential_ports` (so the
essential entries override on key conflicts). -/
def sandboxFinalPorts (host_vnc_port host_ssh_port
    host_sandbox_fastapi_server_port host_sandbox_jupyter_kernel_port : Int)
    (additional_ports : List (Int × Int)) : List (Int × Int) :=
  additional_ports ++
    essential_ports host_vnc_port host_ssh_port
      host_sandbox_fastapi_server_port host_sandbox_jupyter_kernel_port

/-- **C10**: after `SandboxVMConfig` construction the final port map binds
22 to the SSH port, 8006 to the VNC port, 8765 to the FastAPI port and 8888
to the Jupyter port, overriding any conflicting `additional_ports` entries,
and every non-conflicting `additional_ports` entry is preserved. -/
theorem C10_sandbox_final_ports (vnc ssh fastapi jupyter : Int)
    (additional : List (Int × Int)) :
    pyGet (sandboxFinalPorts vnc ssh fastapi jupyter additional) 22 = some ssh ∧
    pyGet (sandboxFinalPorts vnc ssh fastapi jupyter additional) 8006 = some vnc ∧
    pyGet (sandboxFinalPorts vnc ssh fastapi jupyter additional) 8765 = some fastapi ∧
    pyGet (sandboxFinalPorts vnc ssh fastapi jupyter additional) 8888 = some jupyter ∧
    (∀ k : Int, k ≠ 22 → k ≠ 8006 → k ≠ 8765 → k ≠ 8888 →
      pyGet (sandboxFinalPorts vnc ssh fastapi jupyter additional) k =
        pyGet additional k) := by
  refine ⟨?_, ?_, ?_, ?_, ?_⟩
  · rw [sandboxFinalPorts, pyGet_append]
    norm_num [essential_ports, pyGet]
  · rw [sandboxFinalPorts, pyGet_append]
    norm_num [essential_ports, pyGet]
  · rw [sandboxFinalPorts, pyGet_append]
    norm_num [essential_ports, pyGet]
  · rw [sandboxFinalPorts, pyGet_append]
    norm_num [essential_ports, pyGet]
  · intro k h22 h8006 h8765 h8888
    rw [sandboxFinalPorts, pyGet_append]
    have hnone : pyGet (essential_ports vnc ssh fastapi jupyter) k = none := by
      simp [essential_ports, pyGet, Ne.symm h22, Ne.symm h8006,
        Ne.symm h8765, Ne.symm h8888]
    rw [hnone]

/-- Witness for C10 at concrete ports, with a conflicting entry `22 ↦ 9` and
a non-conflicting entry `5000 ↦ 6000` in `additional_ports`. -/
theorem C10_sandbox_final_ports_witness :
    pyGet (sandboxFinalPorts 1 2 3 4 [(22, 9), (5000, 6000)]) 22 = some 2 ∧
    pyGet (sandboxFinalPorts 1 2 3 4 [(22, 9), (5000, 6000)]) 5000 = some 6000 := by
  refine ⟨(C10_sandbox_final_ports 1 2 3 4 [(22, 9), (5000, 6000)]).1, ?_⟩
  rw [(C10_sandbox_final_ports 1 2 3 4 [(22, 9), (5000, 6000)]).2.2.2.2 5000
    (by decide) (by decide) (by decide) (by decide)]
  decide

/-! ## `VMManager` attach / start (`src/sandbox/virtualmachine.py`)

`__init__` calls `_attach_to_existing_container_if_running`, which looks the
container up by name and caches the handle in `self.container` whatever its
status (`NotFound` leaves it `None`).  `start()` creates a container only
when `self.container is None`; otherwise it reloads the status and either
restarts (when `restart_if_running`), does nothing (running/paused), or
starts the stopped container.  The docker daemon is modelled as a map from
container name to status; `reload()` on a vanished container raises
`NotFound`, modelled as an error result. -/

inductive ContainerStatus
  | running | paused | created | restarting | removing | exited | dead
  deriving DecidableEq, Repr

/-- Actions a `VMManager` method issues against the docker daemon. -/
inductive DockerAction
  | createContainer (name : String)
  | restartContainer (name : String)
  | startContainer (name : String)
  deriving DecidableEq, Repr

/-- The manager's cached container handle (`self.container`), identified by
container name. -/
structure VMState where
  container : Option String
  deriving DecidableEq, Repr

/-- `VMManager._attach_to_existing_container_if_running`: look the container
up by name and cache its handle; on `NotFound`, leave the handle empty. -/
def attach_to_existing_container_if_running
    (world : String → Option ContainerStatus) (container_name : String) :
    VMState :=
  match world container_name with
  | some _ => { container := some container_name }
  | none => { container := none }

/-- The container-management part of `VMManager.start(wait_for_ssh,
restart_if_running)` (the subsequent SSH wait issues no container
lifecycle action).  `reload()` of a vanished container is the error case. -/
def VMManager_start (world : String → Option ContainerStatus)
    (cfg_container_name : String) (st : VMState) (restart_if_running : Bool) :
    Except Unit (VMState × List DockerAction) :=
  match st.container with
  | none =>
      .ok ({ container := some cfg_container_name },
           [DockerAction.createContainer cfg_container_name])
  | some name =>
      match world name with
      | none => .error ()
      | some status =>
          if status = ContainerStatus.running ∨ status = ContainerStatus.paused then
            if restart_if_running then .ok (st, [DockerAction.restartContainer name])
            else .ok (st, [])
          else .ok (st, [DockerAction.startContainer name])

/-- **C3**: when the construction-time attach finds a container with the
descriptor's name in a running or paused state, and the daemon state is
unchanged when `start()` runs, `start` issues no `createContainer` action:
it keeps the attached handle, and either restarts it (when
`restart_if_running` is set) or leaves it untouched. -/
theorem C3_attach_then_start_never_creates
    (world : String → Option ContainerStatus) (name : String)
    (status : ContainerStatus) (restart_if_running : Bool)
    (hw : world name = some status)
    (hst : status = ContainerStatus.running ∨ status = ContainerStatus.paused) :
    (attach_to_existing_container_if_running world name).container = some name ∧
    VMManager_start world name
        (attach_to_existing_container_if_running world name) restart_if_running =
      .ok (attach_to_existing_container_if_running world name,
           if restart_if_running then [DockerAction.restartContainer name] else []) ∧
    (∀ n, DockerAction.createContainer n ∉
        (if restart_if_running then [DockerAction.restartContainer name] else
          ([] : List DockerAction))) := by
  have hatt : attach_to_existing_container_if_running world name =
      { container := some name } := by
    simp [attach_to_existing_container_if_running, hw]
  refine ⟨by rw [hatt], ?_, ?_⟩
  · rw [hatt]
    rcases hst with rfl | rfl <;>
      cases restart_if_running <;> simp [VMManager_start, hw]
  · intro n
    cases restart_if_running <;> simp

/-- Witness for C3: a world holding a running container named
`sandbox-task-1`, started without the restart flag. -/
theorem C3_attach_then_start_never_creates_witness :
    (attach_to_existing_container_if_running
        (fun n => if n = "sandbox-task-1" then some ContainerStatus.running else none)
        "sandbox-task-1").container = some "sandbox-task-1" ∧
    VMManager_start
        (fun n => if n = "sandbox-task-1" then some ContainerStatus.running else none)
        "sandbox-task-1"
        (attach_to_existing_container_if_running
          (fun n => if n = "sandbox-task-1" then some ContainerStatus.running else none)
          "sandbox-task-1") false =
      .ok (attach_to_existing_container_if_running
            (fun n => if n = "sandbox-task-1" then some ContainerStatus.running else none)
            "sandbox-task-1",
           if false then [DockerAction.restartContainer "sandbox-task-1"] else []) ∧
    (∀ n, DockerAction.createContainer n ∉
        (if false then [DockerAction.restartContainer "sandbox-task-1"] else
          ([] : List DockerAction))) :=
  C3_attach_then_start_never_creates _ "sandbox-task-1" ContainerStatus.running false
    (by simp) (Or.inl rfl)

/-! ## `SandboxExecutor.cleanup` (`src/agent/executor.py`)

```python
def cleanup(self):
    if getattr(self, "_exited", False):
        return
    try:
        self.logger.log(...)
        if self.kernel_id:
            requests.delete(...)
        if self.ws:
            self.ws.close()
        if hasattr(self, "vm"):
            self.vm.__exit__(None, None, None)
        self.logger.log(...)
    except Exception as e:
        self.logger.log_error(f"Cleanup failed: {e}")
    self._exited = True
```
All three sub-steps sit inside one `try`; the environment records which
attributes are present and which of the three calls would raise. -/

inductive CleanupStep
  | deleteKernel | closeWs | teardownVM
  deriving DecidableEq, Repr

structure CleanupEnv where
  exited : Bool
  has_kernel_id : Bool
  has_ws : Bool
  has_vm : Bool
  deleteKernelRaises : Bool
  closeWsRaises : Bool
  vmExitRaises : Bool
  deriving DecidableEq, Repr

/-- Outcome of one `cleanup()` call: the sub-steps attempted in order, the
first failing sub-step (whose exception the `except` caught), and the value
of `_exited` afterwards. -/
structure CleanupRun where
  executed : List CleanupStep
  caught : Option CleanupStep
  exitedAfter : Bool
  deriving DecidableEq, Repr

def SandboxExecutor_cleanup (env : CleanupEnv) : CleanupRun :=
  if env.exited then { executed := [], caught := none, exitedAfter := true }
  else
    let s1 : List CleanupStep :=
      if env.has_kernel_id then [CleanupStep.deleteKernel] else []
    if env.has_kernel_id && env.deleteKernelRaises then
      { executed := s1, caught := some CleanupStep.deleteKernel, exitedAfter := true }
    else
      let s2 := s1 ++ (if env.has_ws then [CleanupStep.closeWs] else [])
      if env.has_ws && env.closeWsRaises then
        { executed := s2, caught := some CleanupStep.closeWs, exitedAfter := true }
      else
        let s3 := s2 ++ (if env.has_vm then [CleanupStep.teardownVM] else [])
        if env.has_vm && env.vmExitRaises then
          { executed := s3, caught := some CleanupStep.teardownVM, exitedAfter := true }
        else { executed := s3, caught := none, exitedAfter := true }

/-- **C9** counterexample: with the kernel present and its deletion raising,
the streaming connection and the lifecycle teardown are both skipped — an
exception in the first sub-step does prevent the remaining sub-steps. -/
theorem C9_counterexample :
    (SandboxExecutor_cleanup
        ⟨false, true, true, true, true, false, false⟩).executed =
      [CleanupStep.deleteKernel] ∧
    CleanupStep.closeWs ∉
      (SandboxExecutor_cleanup ⟨false, true, true, true, true, false, false⟩).executed ∧
    CleanupStep.teardownVM ∉
      (SandboxExecutor_cleanup ⟨false, true, true, true, true, false, false⟩).executed := by
  decide

/-- **C9** (amended): the three sub-steps run inside a single try/except, so
the first failure is caught (nothing propagates, and the caught step is the
last one attempted — the remaining sub-steps are skipped), when no sub-step
fails every applicable sub-step runs in order, and the exited flag is set in
every case. -/
theorem C9_cleanup_single_try (env : CleanupEnv) :
    (SandboxExecutor_cleanup env).exitedAfter = true ∧
    (∀ s, (SandboxExecutor_cleanup env).caught = some s →
        (SandboxExecutor_cleanup env).executed.getLast? = some s) ∧
    ((SandboxExecutor_cleanup env).caught = none → env.exited = false →
        (SandboxExecutor_cleanup env).executed =
          (if env.has_kernel_id then [CleanupStep.deleteKernel] else []) ++
          (if env.has_ws then [CleanupStep.closeWs] else []) ++
          (if env.has_vm then [CleanupStep.teardownVM] else [])) := by
  obtain ⟨e, hk, hw, hv, dk, cw, ve⟩ := env
  cases e <;> cases hk <;> cases hw <;> cases hv <;> cases dk <;> cases cw <;>
    cases ve <;> decide

/-- Witness for C9: kernel deletion fails; the caught step is the last one
attempted and the exited flag is set. -/
theorem C9_cleanup_single_try_witness :
    (SandboxExecutor_cleanup
        ⟨false, true, true, true, true, false, false⟩).exitedAfter = true ∧
    (SandboxExecutor_cleanup
        ⟨false, true, true, true, true, false, false⟩).executed.getLast? =
      some CleanupStep.deleteKernel :=
  ⟨(C9_cleanup_single_try ⟨false, true, true, true, true, false, false⟩).1,
   (C9_cleanup_single_try ⟨false, true, true, true, true, false, false⟩).2.1
     CleanupStep.deleteKernel (by decide)⟩

/-! ## String containment (Python's `in` operator) -/

/-- `sub` occurs as a contiguous run inside `l` (Python's `sub in s`). -/
def listContainsSub : List Char → List Char → Bool
  | [], sub => sub.isEmpty
  | a :: rest, sub => sub.isPrefixOf (a :: rest) || listContainsSub rest sub

def strContains (s sub : String) : Bool := listContainsSub s.data sub.data

/-- Python's `str.lower()`, character by character. -/
def strToLower (s : String) : String := ⟨s.data.map Char.toLower⟩

/-- Python's `str.startswith(pre)`. -/
def strStartsWith (s pre : String) : Bool := pre.data.isPrefixOf s.data

/-- Python's `str.strip()`: drop leading and trailing whitespace. -/
def pyStrip (s : String) : String :=
  ⟨((s.data.dropWhile Char.isWhitespace).reverse.dropWhile
      Char.isWhitespace).reverse⟩

/-- Python's slice `s[:n]` (by characters). -/
def strTake (s : String) (n : Nat) : String := ⟨s.data.take n⟩

/-- Python's slice `s[n:]` (by characters). -/
def strDrop (s : String) (n : Nat) : String := ⟨s.data.drop n⟩

/-- Concatenation of a list of strings (`+=` accumulation). -/
def strJoin (l : List String) : String := l.foldl (· ++ ·) ""

theorem str_data_append (s t : String) : (s ++ t).data = s.data ++ t.data := by
  cases s; cases t; rfl

theorem str_empty_append (s : String) : "" ++ s = s := by
  cases s; rfl

theorem listContainsSub_nil_sub (l : List Char) : listContainsSub l [] = true := by
  cases l <;> simp [listContainsSub]

theorem listContainsSub_append_right (xs ys sub : List Char)
    (h : listContainsSub ys sub = true) : listContainsSub (xs ++ ys) sub = true := by
  induction xs with
  | nil => simpa
  | cons a rest ih =>
      show (sub.isPrefixOf (a :: (rest ++ ys)) || listContainsSub (rest ++ ys) sub) = true
      rw [ih]
      simp

theorem listContainsSub_append_left (xs ys sub : List Char)
    (h : listContainsSub xs sub = true) : listContainsSub (xs ++ ys) sub = true := by
  induction xs with
  | nil =>
      simp only [listContainsSub, List.isEmpty_iff] at h
      subst h
      exact listContainsSub_nil_sub _
  | cons a rest ih =>
      simp only [listContainsSub, Bool.or_eq_true] at h
      rcases h with h | h
      · show (sub.isPrefixOf (a :: (rest ++ ys)) || listContainsSub (rest ++ ys) sub) = true
        simp only [Bool.or_eq_true]
        refine Or.inl ?_
        rw [List.isPrefixOf_iff_prefix] at h ⊢
        have hpre : a :: rest <+: a :: rest ++ ys := List.prefix_append _ _
        exact h.trans hpre
      · show (sub.isPrefixOf (a :: (rest ++ ys)) || listContainsSub (rest ++ ys) sub) = true
        rw [ih h]
        simp

theorem listContainsSub_self (sub : List Char) : listContainsSub sub sub = true := by
  cases sub with
  | nil => rfl
  | cons a t =>
      show ((a :: t).isPrefixOf (a :: t) || listContainsSub t (a :: t)) = true
      simp only [Bool.or_eq_true]
      refine Or.inl ?_
      rw [List.isPrefixOf_iff_prefix]

theorem strContains_self (s : String) : strContains s s = true :=
  listContainsSub_self s.data

theorem strContains_append_of_right (x y sub : String)
    (h : strContains y sub = true) : strContains (x ++ y) sub = true := by
  unfold strContains at h ⊢
  rw [str_data_append]
  exact listContainsSub_append_right _ _ _ h

theorem strContains_append_of_left (x y sub : String)
    (h : strContains x sub = true) : strContains (x ++ y) sub = true := by
  unfold strContains at h ⊢
  rw [str_data_append]
  exact listContainsSub_append_left _ _ _ h

/-! ## `SSHClient.exec_command` (`src/sandbox/ssh.py`)

The model starts at the channel interaction (environment-variable prefix
handling is skipped because the claims use the default `env=None`, under
which `env_prefix` stays empty).  The paramiko channel is modelled as a
trace: one `ChannelTick` per read-loop iteration, plus the data drained
after the loop and the remote exit status. -/

/-- The fields of `SSHConfig` that `exec_command` reads. -/
structure SSHConfigM where
  password : String := "password"
  command_timeout : Nat := 180
  deriving DecidableEq, Repr

/-- One read-loop iteration's view of the channel: the wall-clock offset
`time.time() - start_time` observed at the loop condition, the chunks
returned by `recv` / `recv_stderr` when ready (`none` = not ready), whether
`exit_status_ready()` holds in this iteration, and whether a `sendall` of
the sudo password would succeed. -/
structure ChannelTick where
  elapsed : Nat
  stdoutChunk : Option String := none
  stderrChunk : Option String := none
  exitReady : Bool := false
  sendOk : Bool := true
  deriving DecidableEq, Repr

/-- The remote side of one `exec_command` call. -/
structure Channel where
  ticks : List ChannelTick
  drainStdout : List String := []
  drainStderr : List String := []
  exitStatus : Int := 0
  deriving DecidableEq, Repr

/-- The loop's mutable locals: joined `stdout_data_parts`,
`stderr_data_parts`, `read_buffer` and `password_sent`. -/
structure ReadLoopState where
  stdout : String := ""
  stderr : String := ""
  read_buffer : String := ""
  password_sent : Bool := false
  deriving DecidableEq, Repr

inductive ReadLoopResult
  | finished (exit_status_ready : Bool) (st : ReadLoopState)
  | sudoPromptError (st : ReadLoopState)
  | outOfTrace
  deriving DecidableEq, Repr

def sudoPromptMarker : String := "[sudo] password for"

/-- The `while not exit_status_ready and (time.time() - start_time <
self.cfg.command_timeout)` read loop of `exec_command`. -/
def readLoop (cfg : SSHConfigM) (needs_pty : Bool) (password_to_send : String) :
    List ChannelTick → ReadLoopState → ReadLoopResult
  | [], _ => .outOfTrace
  | t :: rest, st =>
      if cfg.command_timeout ≤ t.elapsed then .finished false st
      else
        let st1 : ReadLoopState :=
          { st with
            stdout := st.stdout ++ t.stdoutChunk.getD ""
            read_buffer := st.read_buffer ++ t.stdoutChunk.getD "" }
        let st2 : ReadLoopState :=
          { st1 with
            stderr := st1.stderr ++ t.stderrChunk.getD ""
            read_buffer := st1.read_buffer ++ t.stderrChunk.getD "" }
        if needs_pty && !st2.password_sent &&
            strContains (strToLower st2.read_buffer) sudoPromptMarker then
          if password_to_send = "" then .sudoPromptError st2
          else
            let st3 :=
              if t.sendOk then { st2 with password_sent := true, read_buffer := "" }
              else st2
            if t.exitReady then .finished true st3
            else readLoop cfg needs_pty password_to_send rest st3
        else
          if t.exitReady then .finished true st2
          else readLoop cfg needs_pty password_to_send rest st2

/-- `RemoteCommandError(command, status, stdout, stderr)` from
`src/sandbox/errors.py`. -/
structure RemoteCommandError where
  command : String
  status : Int
  stdout : String
  stderr : String
  deriving DecidableEq, Repr

/-- The `{"status": ..., "stdout": ..., "stderr": ...}` dict returned by a
successful blocking call. -/
structure ExecResult where
  status : Int
  stdout : String
  stderr : String
  deriving DecidableEq, Repr

inductive ExecOutcome
  | ok (result : Option ExecResult)
  | error (e : RemoteCommandError)
  | outOfTrace
  deriving DecidableEq, Repr

/-- `cmd_to_execute` after the `sudo -S` wrap (with the default `env=None`,
`env_prefix` is empty). -/
def cmdToExecute (cmd : String) (as_root : Bool) : String :=
  if as_root && !(strStartsWith (pyStrip cmd) "sudo") then "sudo -S " ++ cmd else cmd

/-- `needs_pty = as_root or ("sudo -S" in cmd_to_execute) or
cmd_to_execute.strip().startswith("sudo")`. -/
def needsPty (as_root : Bool) (cmd_to_execute : String) : Bool :=
  as_root || strContains cmd_to_execute "sudo -S" ||
    strStartsWith (pyStrip cmd_to_execute) "sudo"

/-- The `timeout_stderr_message` built on the timeout path. -/
def timeoutStderrMessage (command_timeout : Nat) (out_final err_final : String) :
    String :=
  "Command timed out after " ++ toString command_timeout ++ " seconds. " ++
  "Partial stdout: " ++ strTake out_final 200 ++ "... " ++
  "Partial stderr: " ++ strTake err_final 200 ++ "..."

/-- The message of the error raised when a sudo prompt is detected but no
password is available. -/
def sudoPromptErrMsg (original_cmd : String) : String :=
  "Sudo password prompt detected for command: " ++ original_cmd.quote ++
    " but no password provided."

/-- `SSHClient.exec_command(cmd, env=None, as_root=…, block=…,
sudo_password=…)` from `channel.exec_command` onward, against channel trace
`chan`.  The second component counts how many times the command was
submitted to a channel within this call. -/
def exec_command (cfg : SSHConfigM) (cmd : String) (as_root block : Bool)
    (sudo_password : Option String) (chan : Channel) : ExecOutcome × Nat :=
  let cmd_to_execute := cmdToExecute cmd as_root
  let needs_pty := needsPty as_root cmd_to_execute
  let password_to_send := sudo_password.getD cfg.password
  match readLoop cfg needs_pty password_to_send chan.ticks {} with
  | .outOfTrace => (.outOfTrace, 1)
  | .sudoPromptError _ =>
      (.error ⟨cmd, -1, "", sudoPromptErrMsg cmd⟩, 1)
  | .finished exit_status_ready st =>
      if !exit_status_ready then
        (.error ⟨cmd, -1, st.stdout,
          timeoutStderrMessage cfg.command_timeout st.stdout st.stderr⟩, 1)
      else
        let out_final := st.stdout ++ strJoin chan.drainStdout
        let err_final := st.stderr ++ strJoin chan.drainStderr
        let status := chan.exitStatus
        if !block then (.ok none, 1)
        else if status ≠ 0 then (.error ⟨cmd, status, out_final, err_final⟩, 1)
        else (.ok (some ⟨status, out_final, err_final⟩), 1)

/-- **C4**: when the read loop ends without the remote side reporting an
exit status inside the configured command timeout, `exec_command` raises a
`RemoteCommandError` with sentinel status −1 whose stdout field is the full
partial stdout and whose stderr field is the timeout message, which carries
the (truncated to 200 characters) partial stdout and stderr; the command is
submitted to the channel exactly once, with no retry. -/
theorem C4_exec_command_timeout (cfg : SSHConfigM) (cmd : String)
    (as_root block : Bool) (sudo_password : Option String) (chan : Channel)
    (st : ReadLoopState)
    (h : readLoop cfg (needsPty as_root (cmdToExecute cmd as_root))
          (sudo_password.getD cfg.password) chan.ticks {} = .finished false st) :
    exec_command cfg cmd as_root block sudo_password chan =
      (.error ⟨cmd, -1, st.stdout,
        timeoutStderrMessage cfg.command_timeout st.stdout st.stderr⟩, 1) ∧
    strContains (timeoutStderrMessage cfg.command_timeout st.stdout st.stderr)
      (strTake st.stdout 200) = true ∧
    strContains (timeoutStderrMessage cfg.command_timeout st.stdout st.stderr)
      (strTake st.stderr 200) = true := by
  refine ⟨?_, ?_, ?_⟩
  · simp [exec_command, h]
  · unfold timeoutStderrMessage
    apply strContains_append_of_left
    apply strContains_append_of_left
    apply strContains_append_of_left
    apply strContains_append_of_left
    apply strContains_append_of_right
    exact strContains_self _
  · unfold timeoutStderrMessage
    apply strContains_append_of_left
    apply strContains_append_of_right
    exact strContains_self _

/-- Witness for C4: a command that produces partial output and never
becomes exit-ready inside the 180-second window. -/
theorem C4_exec_command_timeout_witness :
    exec_command ⟨"pw", 180⟩ "sleep 999" false true none
        ⟨[⟨0, some "po", some "pe", false, true⟩,
          ⟨200, none, none, false, true⟩], [], [], 0⟩ =
      (.error ⟨"sleep 999", -1, "po", timeoutStderrMessage 180 "po" "pe"⟩, 1) ∧
    strContains (timeoutStderrMessage 180 "po" "pe") (strTake "po" 200) = true ∧
    strContains (timeoutStderrMessage 180 "po" "pe") (strTake "pe" 200) = true :=
  C4_exec_command_timeout ⟨"pw", 180⟩ "sleep 999" false true none
    ⟨[⟨0, some "po", some "pe", false, true⟩,
      ⟨200, none, none, false, true⟩], [], [], 0⟩
    ⟨"po", "pe", "pope", false⟩ (by decide)

/-- When a PTY is allocated, no password was sent yet, and the first tick's
chunks make the prompt marker appear in the buffer while no password is
available, the loop raises there and then — whatever the rest of the trace
holds. -/
theorem readLoop_sudo_error_first_tick (cfg : SSHConfigM) (needs_pty : Bool)
    (t : ChannelTick) (rest : List ChannelTick)
    (hpty : needs_pty = true)
    (helapsed : t.elapsed < cfg.command_timeout)
    (hmarker : strContains
        (strToLower (t.stdoutChunk.getD "" ++ t.stderrChunk.getD ""))
        sudoPromptMarker = true) :
    readLoop cfg needs_pty "" (t :: rest) {} =
      .sudoPromptError ⟨t.stdoutChunk.getD "", t.stderrChunk.getD "",
        t.stdoutChunk.getD "" ++ t.stderrChunk.getD "", false⟩ := by
  subst hpty
  simp only [readLoop]
  rw [if_neg (by omega)]
  simp [str_empty_append, hmarker]

/-- **C5**: a PTY-allocated call with no `sudo_password` argument and an
empty configured session password raises the typed command error as soon as
the prompt marker appears in the accumulated output — for every
continuation of the channel trace, so without blocking until the timeout. -/
theorem C5_sudo_prompt_no_password (cfg : SSHConfigM) (cmd : String)
    (as_root block : Bool) (chan : Channel) (t : ChannelTick)
    (rest : List ChannelTick)
    (hticks : chan.ticks = t :: rest)
    (hpty : needsPty as_root (cmdToExecute cmd as_root) = true)
    (hnopw : cfg.password = "")
    (helapsed : t.elapsed < cfg.command_timeout)
    (hmarker : strContains
        (strToLower (t.stdoutChunk.getD "" ++ t.stderrChunk.getD ""))
        sudoPromptMarker = true) :
    exec_command cfg cmd as_root block none chan =
      (.error ⟨cmd, -1, "", sudoPromptErrMsg cmd⟩, 1) := by
  have hloop := readLoop_sudo_error_first_tick cfg
    (needsPty as_root (cmdToExecute cmd as_root)) t rest hpty helapsed hmarker
  simp only [exec_command, hticks, Option.getD_none, hnopw, hloop]

/-- Witness for C5: `exec_command("ls", as_root=True)` with an empty
configured password, against a channel that emits a sudo prompt. -/
theorem C5_sudo_prompt_no_password_witness :
    exec_command ⟨"", 180⟩ "ls" true true none
        ⟨[⟨0, some "[sudo] password for user: ", none, false, true⟩],
         [], [], 0⟩ =
      (.error ⟨"ls", -1, "", sudoPromptErrMsg "ls"⟩, 1) :=
  C5_sudo_prompt_no_password ⟨"", 180⟩ "ls" true true
    ⟨[⟨0, some "[sudo] password for user: ", none, false, true⟩], [], [], 0⟩
    ⟨0, some "[sudo] password for user: ", none, false, true⟩ []
    rfl (by decide) rfl (by decide) (by decide)

/-- **C6** counterexample: a call with `block=False` that completes with
exit status 1 returns `None` and raises nothing, so "every exec_command
call that completes with a non-zero remote exit status" raises is false as
stated. -/
theorem C6_counterexample :
    exec_command ⟨"pw", 180⟩ "false" false false none
        ⟨[⟨0, none, none, true, true⟩], [], [], 1⟩ = (.ok none, 1) ∧
    (1 : Int) ≠ 0 := by
  exact ⟨by decide, by decide⟩

/-- **C6** (amended): every **blocking** call (`block=True`, the default)
that completes with a non-zero remote exit status raises a
`RemoteCommandError` carrying the original command text, the exit code, and
both the (drained) stdout and stderr streams. -/
theorem C6_nonzero_exit_blocking (cfg : SSHConfigM) (cmd : String)
    (as_root : Bool) (sudo_password : Option String) (chan : Channel)
    (st : ReadLoopState)
    (h : readLoop cfg (needsPty as_root (cmdToExecute cmd as_root))
          (sudo_password.getD cfg.password) chan.ticks {} = .finished true st)
    (hstatus : chan.exitStatus ≠ 0) :
    exec_command cfg cmd as_root true sudo_password chan =
      (.error ⟨cmd, chan.exitStatus,
        st.stdout ++ strJoin chan.drainStdout,
        st.stderr ++ strJoin chan.drainStderr⟩, 1) := by
  simp [exec_command, h, hstatus]

/-- Witness for C6: a blocking call whose remote exit status is 1, with
output both in the loop and in the post-loop drain. -/
theorem C6_nonzero_exit_blocking_witness :
    exec_command ⟨"pw", 180⟩ "false" false true none
        ⟨[⟨0, some "out", some "err", true, true⟩], ["d1"], ["d2"], 1⟩ =
      (.error ⟨"false", 1, "out" ++ strJoin ["d1"],
        "err" ++ strJoin ["d2"]⟩, 1) :=
  C6_nonzero_exit_blocking ⟨"pw", 180⟩ "false" false none
    ⟨[⟨0, some "out", some "err", true, true⟩], ["d1"], ["d2"], 1⟩
    ⟨"out", "err", "outerr", false⟩ (by decide) (by decide)

/-! ## `SandboxExecutor.run_code_raise_errors` (`src/agent/executor.py`)

```python
while True:
    msg = json.loads(self.ws.recv())
    msg_type = msg.get("msg_type", "")
    parent_msg_id = msg.get("parent_header", {}).get("msg_id")
    if parent_msg_id != msg_id:
        continue
    if msg_type == "stream":
        text = msg["content"]["text"]
        if return_final_answer and text.startswith("RESULT_PICKLE:"):
            pickle_data = text[len("RESULT_PICKLE:"):].strip()
            result = pickle.loads(base64.b64decode(pickle_data))
            waiting_for_idle = True
        else:
            outputs.append(text)
    elif msg_type == "error":
        traceback = msg["content"].get("traceback", [])
        raise AgentError("\n".join(traceback), self.logger)
    elif msg_type == "status" and msg["content"]["execution_state"] == "idle":
        if not return_final_answer or waiting_for_idle:
            break
return result, "".join(outputs)
```
The websocket is modelled as the list of messages it would deliver;
`pickle.loads(base64.b64decode(·))` is an opaque deserializer passed as a
function parameter. -/

/-- One incoming kernel message, projected onto the fields the loop reads. -/
structure KernelMsg where
  msg_type : String
  parent_msg_id : Option String := none
  text : String := ""
  traceback : List String := []
  execution_state : String := ""
  deriving DecidableEq, Repr

inductive RunCodeOutcome (α : Type)
  | done (result : Option α) (outputs : List String)
  | agentError (traceback : List String)
  | blocked
  deriving DecidableEq, Repr

def resultSentinel : String := "RESULT_PICKLE:"

/-- The receive loop of `run_code_raise_errors`, consuming the websocket's
message list; `.blocked` marks a trace that ends before the loop breaks. -/
def runCodeLoop {α : Type} (deserialize : String → α) (msg_id : String)
    (return_final_answer : Bool) :
    List KernelMsg → Option α → List String → Bool → RunCodeOutcome α
  | [], _, _, _ => .blocked
  | m :: rest, result, outputs, waiting_for_idle =>
      if m.parent_msg_id ≠ some msg_id then
        runCodeLoop deserialize msg_id return_final_answer rest
          result outputs waiting_for_idle
      else if m.msg_type = "stream" then
        if return_final_answer && strStartsWith m.text resultSentinel then
          runCodeLoop deserialize msg_id return_final_answer rest
            (some (deserialize (pyStrip (strDrop m.text resultSentinel.length))))
            outputs true
        else
          runCodeLoop deserialize msg_id return_final_answer rest
            result (outputs ++ [m.text]) waiting_for_idle
      else if m.msg_type = "error" then .agentError m.traceback
      else if m.msg_type = "status" && m.execution_state = "idle" then
        if !return_final_answer || waiting_for_idle then .done result outputs
        else
          runCodeLoop deserialize msg_id return_final_answer rest
            result outputs waiting_for_idle
      else
        runCodeLoop deserialize msg_id return_final_answer rest
          result outputs waiting_for_idle

inductive RunCodeReturn (α : Type)
  | value (result : Option α) (output : String)
  | raised (traceback : List String)
  | blocked
  deriving DecidableEq, Repr

/-- `run_code_raise_errors` after the execute request `msg_id` was sent:
run the receive loop and join the captured outputs. -/
def run_code_raise_errors {α : Type} (deserialize : String → α) (msg_id : String)
    (return_final_answer : Bool) (msgs : List KernelMsg) : RunCodeReturn α :=
  match runCodeLoop deserialize msg_id return_final_answer msgs none [] false with
  | .done r outs => .value r (strJoin outs)
  | .agentError tb => .raised tb
  | .blocked => .blocked

/-- The receive loop ignores every message whose parent correlation id does
not match: it behaves as if the stream were pre-filtered. -/
theorem runCodeLoop_eq_filter {α : Type} (deserialize : String → α)
    (msg_id : String) (rfa : Bool) (msgs : List KernelMsg) :
    ∀ result outputs waiting,
      runCodeLoop deserialize msg_id rfa msgs result outputs waiting =
        runCodeLoop deserialize msg_id rfa
          (msgs.filter (fun m => m.parent_msg_id == some msg_id))
          result outputs waiting := by
  induction msgs with
  | nil => intro result outputs waiting; rfl
  | cons m rest ih =>
      intro result outputs waiting
      by_cases hp : m.parent_msg_id = some msg_id
      · have hfil : (m :: rest).filter (fun x => x.parent_msg_id == some msg_id) =
            m :: rest.filter (fun x => x.parent_msg_id == some msg_id) := by
          simp [List.filter_cons, hp]
        rw [hfil]
        simp only [runCodeLoop]
        split_ifs <;> first | rfl | exact ih _ _ _
      · have hfil : (m :: rest).filter (fun x => x.parent_msg_id == some msg_id) =
            rest.filter (fun x => x.parent_msg_id == some msg_id) := by
          simp [List.filter_cons, hp]
        rw [hfil]
        simp only [runCodeLoop]
        rw [if_pos hp]
        exact ih _ _ _

/-- **C8**: the outcome of `run_code_raise_errors` depends only on the
messages whose parent correlation id equals the request id — two incoming
streams agreeing on the matching messages yield the same outcome, whatever
foreign or superseded messages are interleaved. -/
theorem C8_run_code_correlation_filter {α : Type} (deserialize : String → α)
    (msg_id : String) (return_final_answer : Bool)
    (msgs1 msgs2 : List KernelMsg)
    (h : msgs1.filter (fun m => m.parent_msg_id == some msg_id) =
         msgs2.filter (fun m => m.parent_msg_id == some msg_id)) :
    run_code_raise_errors deserialize msg_id return_final_answer msgs1 =
      run_code_raise_errors deserialize msg_id return_final_answer msgs2 := by
  unfold run_code_raise_errors
  rw [runCodeLoop_eq_filter deserialize msg_id return_final_answer msgs1,
      runCodeLoop_eq_filter deserialize msg_id return_final_answer msgs2, h]

/-- Witness for C8: a stream with an interleaved foreign message yields the
same outcome as the stream without it. -/
theorem C8_run_code_correlation_filter_witness :
    run_code_raise_errors (fun s => s) "req-1" false
        [⟨"stream", some "other", "noise", [], ""⟩,
         ⟨"status", some "req-1", "", [], "idle"⟩] =
      run_code_raise_errors (fun s => s) "req-1" false
        [⟨"status", some "req-1", "", [], "idle"⟩] :=
  C8_run_code_correlation_filter (fun s => s) "req-1" false
    [⟨"stream", some "other", "noise", [], ""⟩,
     ⟨"status", some "req-1", "", [], "idle"⟩]
    [⟨"status", some "req-1", "", [], "idle"⟩] (by decide)

/-- Where a finished final-answer run's data comes from: every collected
output chunk is either inherited from the accumulator or the text of a
matching non-sentinel stream message, and the result is either inherited or
the deserialized payload of a matching sentinel-prefixed stream message. -/
theorem runCodeLoop_done_sources {α : Type} (d : String → α) (msg_id : String)
    (msgs : List KernelMsg) :
    ∀ (res : Option α) (outs : List String) (w : Bool) (r : Option α)
      (outs2 : List String),
      runCodeLoop d msg_id true msgs res outs w = .done r outs2 →
      (∀ o ∈ outs2, o ∈ outs ∨ ∃ m ∈ msgs, m.parent_msg_id = some msg_id ∧
          m.msg_type = "stream" ∧ strStartsWith m.text resultSentinel = false ∧
          o = m.text) ∧
      (∀ v, r = some v → res = some v ∨ ∃ m ∈ msgs,
          m.parent_msg_id = some msg_id ∧ m.msg_type = "stream" ∧
          strStartsWith m.text resultSentinel = true ∧
          v = d (pyStrip (strDrop m.text resultSentinel.length))) := by
  induction msgs with
  | nil =>
      intro res outs w r outs2 h
      simp [runCodeLoop] at h
  | cons m rest ih =>
      intro res outs w r outs2 h
      simp only [runCodeLoop] at h
      split_ifs at h with h1 h2 h3 h4 h5 h6
      -- parent id does not match: the message is skipped
      · obtain ⟨ho, hr⟩ := ih _ _ _ _ _ h
        refine ⟨?_, ?_⟩
        · intro o hoo
          rcases ho o hoo with hin | ⟨mm, hmm, hP⟩
          · exact Or.inl hin
          · exact Or.inr ⟨mm, List.mem_cons_of_mem _ hmm, hP⟩
        · intro v hv
          rcases hr v hv with hres | ⟨mm, hmm, hP⟩
          · exact Or.inl hres
          · exact Or.inr ⟨mm, List.mem_cons_of_mem _ hmm, hP⟩
      -- matching sentinel-prefixed stream message: result is overwritten
      · obtain ⟨ho, hr⟩ := ih _ _ _ _ _ h
        refine ⟨?_, ?_⟩
        · intro o hoo
          rcases ho o hoo with hin | ⟨mm, hmm, hP⟩
          · exact Or.inl hin
          · exact Or.inr ⟨mm, List.mem_cons_of_mem _ hmm, hP⟩
        · intro v hv
          rcases hr v hv with hres | ⟨mm, hmm, hP⟩
          · refine Or.inr ⟨m, List.mem_cons_self _ _, not_not.mp h1, h2,
              by simpa using h3, ?_⟩
            injection hres with hres2
            exact hres2.symm
          · exact Or.inr ⟨mm, List.mem_cons_of_mem _ hmm, hP⟩
      -- matching non-sentinel stream message: text appended to outputs
      · obtain ⟨ho, hr⟩ := ih _ _ _ _ _ h
        refine ⟨?_, ?_⟩
        · intro o hoo
          rcases ho o hoo with hin | ⟨mm, hmm, hP⟩
          · rcases List.mem_append.mp hin with hin2 | hin2
            · exact Or.inl hin2
            · refine Or.inr ⟨m, List.mem_cons_self _ _, not_not.mp h1, h2,
                by simpa using h3, by simpa using hin2⟩
          · exact Or.inr ⟨mm, List.mem_cons_of_mem _ hmm, hP⟩
        · intro v hv
          rcases hr v hv with hres | ⟨mm, hmm, hP⟩
          · exact Or.inl hres
          · exact Or.inr ⟨mm, List.mem_cons_of_mem _ hmm, hP⟩
      -- (the matching error-message branch is closed by `split_ifs` itself,
      -- since there `h` equates distinct constructors)
      -- matching idle status with the break condition: loop ends here
      · cases h
        exact ⟨fun o hoo => Or.inl hoo, fun v hv => Or.inl hv⟩
      -- matching idle status without the break condition: loop continues
      · obtain ⟨ho, hr⟩ := ih _ _ _ _ _ h
        refine ⟨?_, ?_⟩
        · intro o hoo
          rcases ho o hoo with hin | ⟨mm, hmm, hP⟩
          · exact Or.inl hin
          · exact Or.inr ⟨mm, List.mem_cons_of_mem _ hmm, hP⟩
        · intro v hv
          rcases hr v hv with hres | ⟨mm, hmm, hP⟩
          · exact Or.inl hres
          · exact Or.inr ⟨mm, List.mem_cons_of_mem _ hmm, hP⟩
      -- any other matching message type: ignored
      · obtain ⟨ho, hr⟩ := ih _ _ _ _ _ h
        refine ⟨?_, ?_⟩
        · intro o hoo
          rcases ho o hoo with hin | ⟨mm, hmm, hP⟩
          · exact Or.inl hin
          · exact Or.inr ⟨mm, List.mem_cons_of_mem _ hmm, hP⟩
        · intro v hv
          rcases hr v hv with hres | ⟨mm, hmm, hP⟩
          · exact Or.inl hres
          · exact Or.inr ⟨mm, List.mem_cons_of_mem _ hmm, hP⟩

/-- **C7**: when a `return_final_answer=True` run finishes, the returned
result is exactly the deserialized (pickled, base64-armored) payload of a
matching sentinel-prefixed stream line, and no collected output chunk
starts with the sentinel prefix — the sentinel line is withheld from the
output text. -/
theorem C7_run_code_final_answer {α : Type} (deserialize : String → α)
    (msg_id : String) (msgs : List KernelMsg) (r : Option α)
    (outs : List String)
    (h : runCodeLoop deserialize msg_id true msgs none [] false = .done r outs) :
    run_code_raise_errors deserialize msg_id true msgs =
      .value r (strJoin outs) ∧
    (∀ o ∈ outs, strStartsWith o resultSentinel = false) ∧
    (∀ v, r = some v → ∃ m ∈ msgs, m.parent_msg_id = some msg_id ∧
        m.msg_type = "stream" ∧ strStartsWith m.text resultSentinel = true ∧
        v = deserialize (pyStrip (strDrop m.text resultSentinel.length))) := by
  obtain ⟨ho, hr⟩ :=
    runCodeLoop_done_sources deserialize msg_id msgs none [] false r outs h
  refine ⟨?_, ?_, ?_⟩
  · unfold run_code_raise_errors
    rw [h]
  · intro o hoo
    rcases ho o hoo with hin | ⟨mm, hmm, hpar, htyp, hsent, heq⟩
    · exact absurd hin (by simp)
    · rw [heq]; exact hsent
  · intro v hv
    rcases hr v hv with hres | hw
    · exact absurd hres (by simp)
    · exact hw

/-- Witness for C7: a run with one plain output line and one sentinel line
whose payload deserializes (under the identity deserializer) to `YWJj`. -/
theorem C7_run_code_final_answer_witness :
    run_code_raise_errors (fun s => s) "m1" true
        [⟨"stream", some "m1", "out-line", [], ""⟩,
         ⟨"stream", some "m1", "RESULT_PICKLE: YWJj", [], ""⟩,
         ⟨"status", some "m1", "", [], "idle"⟩] =
      .value (some "YWJj") (strJoin ["out-line"]) :=
  (C7_run_code_final_answer (fun s => s) "m1"
    [⟨"stream", some "m1", "out-line", [], ""⟩,
     ⟨"stream", some "m1", "RESULT_PICKLE: YWJj", [], ""⟩,
     ⟨"status", some "m1", "", [], "idle"⟩]
    (some "YWJj") ["out-line"] (by decide)).1

/-! ## Per-job control flow and summary persistence (`src/orchestrator.py`)

`run_and_process_task` is a `try/except Exception/finally` whose `finally`
always calls `task_input.save_result_summary()`.  `run_single_task_worker`
returns early (after `_save_error_log`) when `TaskInput.from_file` raises
`FileNotFoundError`, and its outer `except Exception` also only writes an
error log; neither path calls `save_result_summary`.  `main`'s sequential
loop calls `save_result_summary` itself only in its `except TimeoutError`
and `except Exception` handlers — a normally-returned worker result is just
logged.  The model records, per control-flow outcome, the persistence
effects each function performs, in order. -/

/-- Persistence side effects of the per-job control flow. -/
inductive JobEffect
  | saveErrorLog (error_type : String)
  | saveSummary
  deriving DecidableEq, Repr

/-- How the `try` body of `run_and_process_task` (setup, agent run,
evaluation) plays out. -/
inductive TaskBodyOutcome
  | success
  | evalError
  | bodyException
  deriving DecidableEq, Repr

/-- Effects of `run_and_process_task`: a failing evaluation function writes
an `EVALUATION_ERROR` log inside `handle_evaluation` (and is caught there);
any other exception from the body is caught by the `except` clause, which
writes a `TASK_EXECUTION_ERROR` log; the `finally` clause always saves the
summary. -/
def run_and_process_task (o : TaskBodyOutcome) : List JobEffect :=
  (match o with
   | .success => []
   | .evalError => [JobEffect.saveErrorLog "EVALUATION_ERROR"]
   | .bodyException => [JobEffect.saveErrorLog "TASK_EXECUTION_ERROR"]) ++
  [JobEffect.saveSummary]

/-- How `run_single_task_worker` plays out. -/
inductive WorkerOutcome
  | missingTaskDefinition
  | workerSetupError
  | runsTask (body : TaskBodyOutcome)
  deriving DecidableEq, Repr

/-- Effects of `run_single_task_worker`: when `TaskInput.from_file` raises
`FileNotFoundError` it writes a `TASK_DEFINITION_ERROR` log and returns the
placeholder `TaskInput`; when sandbox-config or agent construction raises,
its `except Exception` writes an `ORCHESTRATOR_WORKER_ERROR` log; otherwise
it delegates to `run_and_process_task`.  No branch of the worker itself
calls `save_result_summary`. -/
def run_single_task_worker (o : WorkerOutcome) : List JobEffect :=
  match o with
  | .missingTaskDefinition => [JobEffect.saveErrorLog "TASK_DEFINITION_ERROR"]
  | .workerSetupError => [JobEffect.saveErrorLog "ORCHESTRATOR_WORKER_ERROR"]
  | .runsTask body => run_and_process_task body

/-- How one iteration of the sequential loop in `main` plays out; for the
exception outcomes, the field carries whatever effects the interrupted
worker call had already performed. -/
inductive MainTaskOutcome
  | workerReturns (w : WorkerOutcome)
  | timeoutRaised (effectsSoFar : List JobEffect)
  | otherException (effectsSoFar : List JobEffect)
  deriving DecidableEq, Repr

/-- One iteration of the `for i, (tool, uid) in enumerate(all_tasks)` loop
in `main`: a normally-returned worker result is only logged; on
`TimeoutError` a placeholder `TaskInput` is built and its summary saved; on
any other exception a `SEQUENTIAL_RUNNER_ERROR` log and a summary are
saved. -/
def main_task_iteration (o : MainTaskOutcome) : List JobEffect :=
  match o with
  | .workerReturns w => run_single_task_worker w
  | .timeoutRaised eff => eff ++ [JobEffect.saveSummary]
  | .otherException eff =>
      eff ++ [JobEffect.saveErrorLog "SEQUENTIAL_RUNNER_ERROR",
              JobEffect.saveSummary]

/-- **C1**: the claimed guarantee fails on the code.  For a job whose
task-definition file is absent, the worker writes a `TASK_DEFINITION_ERROR`
log and returns normally, and the main loop persists no summary for a
normally-returned worker — zero summary records for that job (likewise for
a worker-setup error).  Jobs that reach `run_and_process_task` do persist
exactly one summary, on every body outcome. -/
theorem C1_missing_task_definition_no_summary :
    (main_task_iteration (.workerReturns .missingTaskDefinition)).count
        JobEffect.saveSummary = 0 ∧
    JobEffect.saveErrorLog "TASK_DEFINITION_ERROR" ∈
      main_task_iteration (.workerReturns .missingTaskDefinition) ∧
    (main_task_iteration (.workerReturns .workerSetupError)).count
        JobEffect.saveSummary = 0 ∧
    (∀ body, (main_task_iteration (.workerReturns (.runsTask body))).count
        JobEffect.saveSummary = 1) := by
  refine ⟨by decide, by decide, by decide, ?_⟩
  intro body
  cases body <;> decide

end Bench
